import Mathlib

/-!
# Verification of the fire-proof wildfire navigation engine

Shallow embedding of the engine's core (fire_service.py, cell_service.py,
routing_service.py, models/schemas.py) and proofs of the frozen claims.

Modelling conventions:
* Python floats are modelled as `ℚ`.  Python's `round(x, n)` (and the
  `f"{x:.4f}"` formatting used for deduplication keys) are modelled with
  Mathlib's `round` on rationals; the half-to-even tie rule of floats is
  modelled as half-up — no claim exercises a tie.
* The haversine functions `_haversine` / `calculate_distance_km` are
  transcendental (sin/cos/atan2), so they are not representable as an
  executable rational function.  All geometric code is therefore
  parameterised over an arbitrary distance oracle `DistFn`; the claims under
  test concern the control flow around the distance values, not the values
  themselves.
* Python `Optional` values are `Option`; Python truthiness on optional
  floats (`x or default`, `if x and ...`) is modelled explicitly
  (`pyOrQ`, `py_truthy_q`), since `None` and `0.0` are both falsy.
* HTTP calls are modelled by making each function a pure function of the
  upstream response (`ORSOutcome`); raised exceptions become `Except.error`.
-/

/- Batteries marks rational arithmetic `@[irreducible]`; witnesses evaluate
concrete runs of the embedded code, so restore unfolding locally. -/
attribute [local semireducible] Rat.add Rat.mul Rat.inv Rat.sub Rat.ofScientific

/-- Distance oracle standing for the haversine `calculate_distance_km` /
`_haversine` (lat1 lng1 lat2 lng2 ↦ km). -/
abbrev DistFn := ℚ → ℚ → ℚ → ℚ → ℚ

/-- `models/schemas.py` — `AlertLevel(str, Enum)`. -/
inductive AlertLevel where
  | none
  | low
  | medium
  | high
  | critical
deriving DecidableEq, Repr

/-- `models/schemas.py` — `Coordinate`. -/
structure Coordinate where
  latitude : ℚ
  longitude : ℚ
deriving DecidableEq, Repr

/-- `models/schemas.py` — `DangerZone`. -/
structure DangerZone where
  center_lat : ℚ
  center_lng : ℚ
  radius_km : ℚ
  fire_id : Option String
  risk_level : AlertLevel
deriving DecidableEq, Repr

/-- A Python confidence value is a string or an int depending on the
upstream sensor (`isinstance(confidence, int)` branches in
`calculate_danger_radius`). -/
inductive PyConf where
  | str (s : String)
  | int (n : ℤ)
deriving DecidableEq, Repr

/-- A raw fire record as produced by `parse_firms_csv` (a dict; absent or
unparsable fields are `None`). -/
structure RawFire where
  latitude : Option ℚ
  longitude : Option ℚ
  brightness : Option ℚ
  acq_date : Option String
  acq_time : Option String
  satellite : Option String
  confidence : Option PyConf
  frp : Option ℚ
deriving DecidableEq, Repr

/-- `models/schemas.py` — `FireData`. -/
structure FireData where
  latitude : ℚ
  longitude : ℚ
  brightness : Option ℚ
  acq_date : Option String
  acq_time : Option String
  satellite : Option String
  confidence : Option PyConf
  frp : Option ℚ
  distance_km : Option ℚ
  danger_radius_km : Option ℚ
deriving DecidableEq, Repr

/-- `models/schemas.py` — `CellTower`. -/
structure CellTower where
  latitude : ℚ
  longitude : ℚ
  mcc : ℤ
  mnc : ℤ
  lac : ℤ
  cell_id : ℤ
  radio : String
  range_m : Option ℤ
  is_operational : Bool
deriving DecidableEq, Repr

/-- `models/schemas.py` — `RouteStep`. -/
structure RouteStep where
  instruction : String
  distance_m : ℚ
  duration_s : ℚ
  latitude : ℚ
  longitude : ℚ
deriving DecidableEq, Repr

/-- `models/schemas.py` — `SafeRoute`. -/
structure SafeRoute where
  origin : Coordinate
  destination : Coordinate
  destination_name : Option String
  distance_km : ℚ
  duration_minutes : ℚ
  geometry : String
  steps : List RouteStep
  avoids_fire_zones : Bool
  has_cell_coverage_throughout : Bool
  danger_zones_nearby : List DangerZone
  warnings : List String
deriving DecidableEq, Repr

/-- The result dicts of `estimate_cell_coverage` / `estimate_coverage_simple`
(`reason` / integer fields are present only in some of them, hence `Option`). -/
structure CoverageInfo where
  has_coverage : Bool
  quality : String
  tower_count : Option ℕ
  closest_tower_m : Option ℤ
  reason : Option String
deriving DecidableEq, Repr

/-- A candidate destination dict (`{'lat': .., 'lng': .., 'name': ..}`) as
consumed by `get_route_to_nearest_safe_place`. -/
structure Dest where
  lat : ℚ
  lng : ℚ
  name : Option String
deriving DecidableEq, Repr

/-- Python `x or default` on an optional float: `None` and `0.0` are falsy. -/
def pyOrQ : Option ℚ → ℚ → ℚ
  | some v, dflt => if v = 0 then dflt else v
  | none, dflt => dflt

/-- Python truthiness of an optional float (`if x and ...`). -/
def py_truthy_q : Option ℚ → Bool
  | none => false
  | some v => v != 0

/-- Floor of a rational as an integer (`Int.fdiv` is floor division), kept
kernel-computable so witnesses evaluate. -/
def q_floor (q : ℚ) : ℤ := Int.fdiv q.num q.den

/-- Rounding a rational to the nearest integer (ties: half-up instead of the
float half-to-even; no claim exercises a tie). -/
def py_round (q : ℚ) : ℤ := q_floor (q + 1/2)

/-- Python `round(x, n)` on rationals. -/
def round_to (n : ℕ) (q : ℚ) : ℚ := (py_round (q * 10 ^ n) : ℚ) / 10 ^ n

/-! ## fire_service.py -/

/-- `confidence == 'high' or (isinstance(confidence, int) and confidence > 80)`. -/
def conf_high : PyConf → Bool
  | .str s => s == "high"
  | .int n => 80 < n

/-- `confidence == 'low' or (isinstance(confidence, int) and confidence < 30)`. -/
def conf_low : PyConf → Bool
  | .str s => s == "low"
  | .int n => n < 30

/-- `fire_service.calculate_danger_radius(fire)`.  `fire.get('frp') or 0` is
`pyOrQ`; `fire.get('confidence', 'nominal')` is `getD`. -/
def calculate_danger_radius (fire : RawFire) : ℚ :=
  let frp := pyOrQ fire.frp 0
  let confidence := fire.confidence.getD (PyConf.str "nominal")
  let base_radius : ℚ :=
    if frp > 500 then 5.0
    else if frp > 100 then 3.0
    else if frp > 50 then 2.0
    else if frp > 10 then 1.5
    else 1.0
  if conf_high confidence then base_radius * 1.2
  else if conf_low confidence then base_radius * 0.8
  else base_radius

/-- Modelled from the claim/spec wording (C5): the FRP-bucket base radius
multiplied by a confidence factor of 1.2 ("high" or numeric > 80),
0.8 ("low" or numeric < 30) and 1.0 otherwise. -/
def danger_radius_spec (fire : RawFire) : ℚ :=
  let frp := pyOrQ fire.frp 0
  let confidence := fire.confidence.getD (PyConf.str "nominal")
  let base : ℚ :=
    if frp > 500 then 5.0
    else if frp > 100 then 3.0
    else if frp > 50 then 2.0
    else if frp > 10 then 1.5
    else 1.0
  let factor : ℚ :=
    if conf_high confidence then 1.2
    else if conf_low confidence then 0.8
    else 1.0
  base * factor

/-- The dedup-key contribution of one coordinate, `f"{x:.4f}"`: the value
rounded to 4 decimals, plus the sign artifact that distinguishes the
formatted strings "-0.0000" and "0.0000". -/
def fmt4_key (x : ℚ) : ℚ × Bool := (round_to 4 x, decide (x < 0 ∧ round_to 4 x = 0))

/-- The dedup key `f"{lat:.4f},{lng:.4f},{date}"` used by `fetch_fires`. -/
abbrev FireKey := (ℚ × Bool) × (ℚ × Bool) × Option String

def fire_key (lat lng : ℚ) (acq_date : Option String) : FireKey :=
  (fmt4_key lat, fmt4_key lng, acq_date)

/-- The key of a produced `FireData` (its exact coordinates are the raw
record's coordinates). -/
def fire_data_key (f : FireData) : FireKey := fire_key f.latitude f.longitude f.acq_date

/-- The merge/dedup/filter loop of `fetch_fires` over the concatenation of
the per-sensor record lists (`seen` is the accumulated key set; records with
missing coordinates are skipped; the key is recorded *before* the
`distance <= radius_km` range check). -/
def fetch_fires_merge (d : DistFn) (latitude longitude radius_km : ℚ) :
    List RawFire → List FireKey → List FireData
  | [], _ => []
  | fire :: rest, seen =>
    match fire.latitude, fire.longitude with
    | some flat, some flng =>
      let key := fire_key flat flng fire.acq_date
      if key ∈ seen then fetch_fires_merge d latitude longitude radius_km rest seen
      else
        let distance := d latitude longitude flat flng
        if distance ≤ radius_km then
          { latitude := flat, longitude := flng, brightness := fire.brightness,
            acq_date := fire.acq_date, acq_time := fire.acq_time,
            satellite := fire.satellite, confidence := fire.confidence,
            frp := fire.frp, distance_km := some (round_to 2 distance),
            danger_radius_km := some (calculate_danger_radius fire) } ::
            fetch_fires_merge d latitude longitude radius_km rest (key :: seen)
        else fetch_fires_merge d latitude longitude radius_km rest (key :: seen)
    | _, _ => fetch_fires_merge d latitude longitude radius_km rest seen

/-- Sort key of the final `all_fires.sort(key=lambda f: f.distance_km or
float('inf'))` — note `0.0` is falsy, so it also sorts as infinity. -/
def fire_sort_key (f : FireData) : WithTop ℚ :=
  match f.distance_km with
  | some v => if v = 0 then ⊤ else (v : WithTop ℚ)
  | none => ⊤

/-- `fetch_fires` as a pure function of the already-merged raw record list
(the per-sensor HTTP fetching itself is out of scope per the spec §1). -/
def fetch_fires_model (d : DistFn) (latitude longitude radius_km : ℚ)
    (raws : List RawFire) : List FireData :=
  (fetch_fires_merge d latitude longitude radius_km raws []).mergeSort
    (fun a b => decide (fire_sort_key a ≤ fire_sort_key b))

/-- The risk classification inside `create_danger_zones`:
`if fire.distance_km and fire.distance_km <= 5: ...` — note the Python
truthiness conjunct, under which `distance_km` of `None` *or `0.0`* falls
through every branch to LOW. -/
def zone_risk (dk : Option ℚ) : AlertLevel :=
  if py_truthy_q dk ∧ dk.getD 0 ≤ 5 then AlertLevel.critical
  else if py_truthy_q dk ∧ dk.getD 0 ≤ 10 then AlertLevel.high
  else if py_truthy_q dk ∧ dk.getD 0 ≤ 25 then AlertLevel.medium
  else AlertLevel.low

/-- The `for i, fire in enumerate(fires)` loop of `create_danger_zones`. -/
def create_danger_zones_aux (buffer_multiplier : ℚ) : ℕ → List FireData → List DangerZone
  | _, [] => []
  | i, fire :: rest =>
    { center_lat := fire.latitude, center_lng := fire.longitude,
      radius_km := pyOrQ fire.danger_radius_km 1.0 * buffer_multiplier,
      fire_id := some ("fire_" ++ toString i),
      risk_level := zone_risk fire.distance_km } ::
      create_danger_zones_aux buffer_multiplier (i + 1) rest

/-- `fire_service.create_danger_zones(fires, buffer_multiplier=1.5)`. -/
def create_danger_zones (fires : List FireData) (buffer_multiplier : ℚ := 1.5) :
    List DangerZone :=
  create_danger_zones_aux buffer_multiplier 0 fires

/-- `fire_service.is_point_in_danger_zone` (the early-`return True` loop is
`List.any`). -/
def is_point_in_danger_zone (d : DistFn) (lat lng : ℚ) (danger_zones : List DangerZone) : Bool :=
  danger_zones.any fun zone =>
    decide (d lat lng zone.center_lat zone.center_lng ≤ zone.radius_km)

/-! ## cell_service.py -/

/-- `cell_service.estimate_cell_coverage(towers, latitude, longitude)`. -/
def estimate_cell_coverage (d : DistFn) (towers : List CellTower)
    (latitude longitude : ℚ) : CoverageInfo :=
  if towers.isEmpty then
    { has_coverage := false, quality := "unknown", tower_count := some 0,
      closest_tower_m := none, reason := none }
  else
    let tower_distances := (towers.filter (·.is_operational)).map
      (fun t => d latitude longitude t.latitude t.longitude * 1000)
    if tower_distances.isEmpty then
      { has_coverage := false, quality := "no_service", tower_count := some 0,
        closest_tower_m := none, reason := none }
    else
      let sorted := tower_distances.mergeSort (fun a b => decide (a ≤ b))
      let closest_distance := sorted.headD 0
      let towers_in_range := (tower_distances.filter (fun t => decide (t < 5000))).length
      let quality :=
        if closest_distance < 500 ∧ 3 ≤ towers_in_range then "excellent"
        else if closest_distance < 1000 ∧ 2 ≤ towers_in_range then "good"
        else if closest_distance < 2000 then "fair"
        else if closest_distance < 5000 then "poor"
        else "no_service"
      { has_coverage := !(quality == "no_service" || quality == "unknown"),
        quality := quality, tower_count := some towers_in_range,
        closest_tower_m := some (py_round closest_distance), reason := none }

/-- `cell_service.estimate_coverage_simple(latitude, longitude, danger_zones)`. -/
def estimate_coverage_simple (d : DistFn) (latitude longitude : ℚ)
    (danger_zones : List DangerZone) : CoverageInfo :=
  if is_point_in_danger_zone d latitude longitude danger_zones then
    { has_coverage := false, quality := "likely_degraded", tower_count := none,
      closest_tower_m := none, reason := some "Location is in fire danger zone" }
  else
    { has_coverage := true, quality := "assumed_available", tower_count := none,
      closest_tower_m := none, reason := some "Location is outside fire zones" }

/-! ## routing_service.py -/

/-- One 5-bit-chunk read of `decode_polyline` (`result |= (b & 0x1f) << shift`
until `b < 0x20`).  The or over disjoint bit ranges is an addition, and the
Python mask `b & 0x1f` on a (possibly negative) int is `b % 32`.  Running out
of characters mid-chunk raises `IndexError` in Python, modelled as `none`. -/
def decode_chunk : List ℕ → ℕ → ℕ → Option (ℕ × List ℕ)
  | [], _, _ => none
  | c :: rest, shift, result =>
    let b : ℤ := (c : ℤ) - 63
    let result' := result + (b % 32).toNat * 2 ^ shift
    if b < 32 then some (result', rest) else decode_chunk rest (shift + 5) result'

/-- The zigzag step `~(result >> 1) if result & 1 else result >> 1`. -/
def zigzag_decode (r : ℕ) : ℤ :=
  if r % 2 = 1 then -((r / 2 : ℕ) : ℤ) - 1 else ((r / 2 : ℕ) : ℤ)

/-- The `while index < len(encoded)` loop of `decode_polyline`, with fuel
(each chunk consumes at least one character, so `encoded.length` fuel is
enough; a malformed tail that would raise `IndexError` in Python stops the
loop). -/
def decode_polyline_loop : ℕ → List ℕ → ℤ → ℤ → List (ℤ × ℤ)
  | 0, _, _, _ => []
  | _ + 1, [], _, _ => []
  | fuel + 1, c :: cs, lat, lng =>
    match decode_chunk (c :: cs) 0 0 with
    | none => []
    | some (r1, rest1) =>
      let lat' := lat + zigzag_decode r1
      match decode_chunk rest1 0 0 with
      | none => []
      | some (r2, rest2) =>
        let lng' := lng + zigzag_decode r2
        (lat', lng') :: decode_polyline_loop fuel rest2 lat' lng'

/-- `routing_service.decode_polyline(encoded, precision=5)`. -/
def decode_polyline (encoded : String) (precision : ℕ := 5) : List (ℚ × ℚ) :=
  (decode_polyline_loop encoded.length (encoded.data.map Char.toNat) 0 0).map
    (fun p => ((p.1 : ℚ) / 10 ^ precision, (p.2 : ℚ) / 10 ^ precision))

/-- The parsed `summary` / `geometry` / `segments` of one entry of the ORS
response's `routes` list (dict `.get` defaults of `0` / `''` / `[]` folded
into the fields). -/
structure ORSStep where
  instruction : String
  distance : ℚ
  duration : ℚ
  way_point_start : ℕ
deriving DecidableEq, Repr

structure ORSSegment where
  steps : List ORSStep
deriving DecidableEq, Repr

structure ORSRoute where
  summary_distance : ℚ
  summary_duration : ℚ
  geometry : String
  segments : List ORSSegment
deriving DecidableEq, Repr

/-- A parsed 200-response body: the `routes` list, plus the
`error.message` field read in the non-200 branch. -/
structure ORSBody where
  routes : List ORSRoute
  error_message : Option String
deriving DecidableEq, Repr

/-- What the routing provider did for one request: an HTTP response whose
JSON body parsed (`some`) or not (`none`, `response.json()` raises), a
`httpx.TimeoutException`, or another `httpx.RequestError`. -/
inductive ORSOutcome where
  | response (status : ℕ) (body : Option ORSBody) (text : String)
  | timeout
  | requestError
deriving DecidableEq, Repr

/-- The exceptions `get_route` can raise, as error values. -/
inductive RouteFailure where
  | timeout
  | requestError
  | apiError (msg : String)
  | malformedPayload
  | stepIndexError
deriving DecidableEq, Repr

/-- The step-rebuilding body of `get_route`'s inner loop:
`step_index = min(way_points[0], len(decoded) - 1); decoded[step_index]`.
On an empty decoded path, Python's `decoded[-1]` raises `IndexError`. -/
def build_step (geometry : String) (step : ORSStep) : Except RouteFailure RouteStep :=
  let decoded := decode_polyline geometry
  match decoded with
  | [] => Except.error RouteFailure.stepIndexError
  | p :: ps =>
    let step_index := min step.way_point_start ((p :: ps).length - 1)
    let pt := (p :: ps).getD step_index (0, 0)
    Except.ok { instruction := step.instruction, distance_m := step.distance,
                duration_s := step.duration, latitude := pt.1, longitude := pt.2 }

/-- The `for segment in segments: for step in segment.get('steps', [])` loop. -/
def build_steps (geometry : String) (segments : List ORSSegment) :
    Except RouteFailure (List RouteStep) :=
  ((segments.map (·.steps)).flatten).mapM (build_step geometry)

/-- The `for zone in danger_zones: for lat, lng in decoded_route` proximity
scan of `get_route` (lines 160-172): flag a zone on the first path point with
`dist < zone.radius_km * 2`, skipping zones already flagged, and record one
warning per flagged zone.  The warning's `{dist:.1f}` float formatting is
simplified to `toString` of the rounded rational. -/
def scan_zones_aux (d : DistFn) (path : List (ℚ × ℚ)) :
    List DangerZone → List DangerZone → List String → List DangerZone × List String
  | [], nearby, warnings => (nearby, warnings)
  | zone :: rest, nearby, warnings =>
    match path.find? (fun p =>
        decide (d p.1 p.2 zone.center_lat zone.center_lng < zone.radius_km * 2)) with
    | some p =>
      if zone ∈ nearby then scan_zones_aux d path rest nearby warnings
      else
        scan_zones_aux d path rest (nearby ++ [zone])
          (warnings ++ ["Route passes within " ++
            toString (round_to 1 (d p.1 p.2 zone.center_lat zone.center_lng)) ++
            "km of active fire"])
    | none => scan_zones_aux d path rest nearby warnings

def scan_zones (d : DistFn) (path : List (ℚ × ℚ)) (zones : List DangerZone) :
    List DangerZone × List String :=
  scan_zones_aux d path zones [] []

/-- The `SafeRoute(...)` constructed at the end of `get_route` from the first
route of the response.  `if danger_zones:` is Python-truthy: `None` and `[]`
both skip the scan. -/
def route_to_safe_route (d : DistFn) (origin_lat origin_lng dest_lat dest_lng : ℚ)
    (danger_zones : Option (List DangerZone)) (route : ORSRoute)
    (steps : List RouteStep) : SafeRoute :=
  let scanned :=
    match danger_zones with
    | some zs => if zs = [] then ([], []) else scan_zones d (decode_polyline route.geometry) zs
    | none => ([], [])
  { origin := { latitude := origin_lat, longitude := origin_lng },
    destination := { latitude := dest_lat, longitude := dest_lng },
    destination_name := none,
    distance_km := round_to 2 (route.summary_distance / 1000),
    duration_minutes := round_to 1 (route.summary_duration / 60),
    geometry := route.geometry,
    steps := steps,
    avoids_fire_zones := scanned.1.isEmpty,
    has_cell_coverage_throughout := true,
    danger_zones_nearby := scanned.1,
    warnings := scanned.2 }

/-- `routing_service.get_route` as a pure function of the provider outcome
(the request construction — avoid polygons, profile, API key guard — only
shapes the request and is absorbed into the outcome). -/
def get_route_pure (d : DistFn) (origin_lat origin_lng dest_lat dest_lng : ℚ)
    (danger_zones : Option (List DangerZone)) (outcome : ORSOutcome) :
    Except RouteFailure (Option SafeRoute) :=
  match outcome with
  | ORSOutcome.timeout => Except.error RouteFailure.timeout
  | ORSOutcome.requestError => Except.error RouteFailure.requestError
  | ORSOutcome.response status body text =>
    if status = 404 then Except.ok none
    else if status ≠ 200 then
      match body with
      | none => Except.error RouteFailure.malformedPayload
      | some data => Except.error (RouteFailure.apiError (data.error_message.getD text))
    else
      match body with
      | none => Except.error RouteFailure.malformedPayload
      | some data =>
        match data.routes with
        | [] => Except.ok none
        | route :: _ =>
          match build_steps route.geometry route.segments with
          | Except.error e => Except.error e
          | Except.ok steps =>
            Except.ok (some (route_to_safe_route d origin_lat origin_lng
              dest_lat dest_lng danger_zones route steps))

/-- The provider's behavior over a whole selector run: one outcome per
(destination, avoidance payload) pair. -/
abbrev RouteEnv := Dest → Option (List DangerZone) → ORSOutcome

/-- `route.duration_minutes < best_duration`, where `best_duration` starts
as `float('inf')`. -/
def lt_best (q : ℚ) : Option (SafeRoute × Dest × ℚ) → Bool
  | none => true
  | some (_, _, b) => decide (q < b)

def fallback_warning : String :=
  "WARNING: This route may pass through or near fire zones"

/-- The mutation applied to a route kept by the fallback pass:
`route.warnings.append(...)`; `route.avoids_fire_zones = False`. -/
def mark_fallback (route : SafeRoute) : SafeRoute :=
  { route with
    warnings := route.warnings ++ [fallback_warning]
    avoids_fire_zones := false }

/-- The constrained pass of `get_route_to_nearest_safe_place` (lines
198-215): keep the minimum-duration route among candidates that succeed and
avoid fire zones; per-candidate exceptions are swallowed. -/
def selector_pass1 (d : DistFn) (env : RouteEnv) (origin_lat origin_lng : ℚ)
    (danger_zones : Option (List DangerZone)) :
    Option (SafeRoute × Dest × ℚ) → List Dest → Option (SafeRoute × Dest × ℚ)
  | best, [] => best
  | best, dst :: rest =>
    match get_route_pure d origin_lat origin_lng dst.lat dst.lng danger_zones
        (env dst danger_zones) with
    | Except.ok (some route) =>
      if route.avoids_fire_zones && lt_best route.duration_minutes best then
        selector_pass1 d env origin_lat origin_lng danger_zones
          (some (route, dst, route.duration_minutes)) rest
      else selector_pass1 d env origin_lat origin_lng danger_zones best rest
    | _ => selector_pass1 d env origin_lat origin_lng danger_zones best rest

/-- The fallback pass (lines 217-235): re-request each candidate with
`danger_zones=None`; on each new best, append the warning and force
`avoids_fire_zones = False` on the kept route. -/
def selector_pass2 (d : DistFn) (env : RouteEnv) (origin_lat origin_lng : ℚ) :
    Option (SafeRoute × Dest × ℚ) → List Dest → Option (SafeRoute × Dest × ℚ)
  | best, [] => best
  | best, dst :: rest =>
    match get_route_pure d origin_lat origin_lng dst.lat dst.lng none (env dst none) with
    | Except.ok (some route) =>
      if lt_best route.duration_minutes best then
        selector_pass2 d env origin_lat origin_lng
          (some (mark_fallback route, dst, route.duration_minutes)) rest
      else selector_pass2 d env origin_lat origin_lng best rest
    | _ => selector_pass2 d env origin_lat origin_lng best rest

/-- `routing_service.get_route_to_nearest_safe_place`: constrained pass,
then — only if it produced nothing — the fallback pass; the chosen route
gets `destination_name` from the winning candidate. -/
def get_route_to_nearest_safe_place (d : DistFn) (env : RouteEnv)
    (origin_lat origin_lng : ℚ) (destinations : List Dest)
    (danger_zones : Option (List DangerZone)) : Option (SafeRoute × Dest) :=
  match selector_pass1 d env origin_lat origin_lng danger_zones none destinations with
  | some (route, dst, _) => some ({ route with destination_name := dst.name }, dst)
  | none =>
    match selector_pass2 d env origin_lat origin_lng none destinations with
    | some (route, dst, _) => some ({ route with destination_name := dst.name }, dst)
    | none => none

/-! ## Concrete instances used by witnesses and counterexamples -/

/-- An arbitrary concrete distance oracle. -/
def dC : DistFn := fun _ _ _ _ => 10

/-- A distance oracle placing every point 1.5 km from every zone center. -/
def d_three_halves : DistFn := fun _ _ _ _ => 3/2

/-- A distance oracle placing every fire 10000 km away (the true haversine
distance from (0,0) to (45,90) is about 10007 km). -/
def d_far : DistFn := fun _ _ _ _ => 10000

/-- A 2 km danger zone. -/
def z0 : DangerZone :=
  { center_lat := 34, center_lng := -118, radius_km := 2,
    fire_id := some "fire_0", risk_level := AlertLevel.high }

/-- A provider route: 1000 m, 540 s (9 minutes), empty geometry, no steps. -/
def route_cex : ORSRoute :=
  { summary_distance := 1000, summary_duration := 540, geometry := "", segments := [] }

def body_one : ORSBody := { routes := [route_cex], error_message := none }

def dest0 : Dest := { lat := 1, lng := 1, name := some "Shelter A" }

/-- A provider that 404s every constrained request and returns `route_cex`
for every unconstrained request. -/
def env_cex : RouteEnv := fun _ zs =>
  match zs with
  | some _ => ORSOutcome.response 404 none ""
  | none => ORSOutcome.response 200 (some body_one) ""

/-- The `SafeRoute` value that `get_route` builds from `route_cex` when the
proximity scan flags nothing. -/
def r_unc : SafeRoute :=
  { origin := { latitude := 0, longitude := 0 },
    destination := { latitude := 1, longitude := 1 },
    destination_name := none, distance_km := 1, duration_minutes := 9,
    geometry := "", steps := [], avoids_fire_zones := true,
    has_cell_coverage_throughout := true, danger_zones_nearby := [], warnings := [] }

/-- A processed fire observation sitting exactly at the reference point:
`distance_km == 0.0`. -/
def fire0 : FireData :=
  { latitude := 34, longitude := -118, brightness := none, acq_date := some "2024-01-01",
    acq_time := none, satellite := none, confidence := none, frp := some 20,
    distance_km := some 0, danger_radius_km := some 4 }

/-- Two raw records at the same location and date, reported by different
sensors. -/
def raw_a : RawFire :=
  { latitude := some 45, longitude := some 90, brightness := none,
    acq_date := some "2024-01-01", acq_time := some "0300", satellite := some "N",
    confidence := some (PyConf.str "high"), frp := some 20 }

def raw_b : RawFire := { raw_a with satellite := some "1" }

/-- A fire whose danger radius came from `calculate_danger_radius`. -/
def fire_w : FireData :=
  { latitude := 34, longitude := -118, brightness := none, acq_date := some "2024-01-01",
    acq_time := none, satellite := some "N", confidence := some (PyConf.str "high"),
    frp := some 20, distance_km := some 3,
    danger_radius_km := some (calculate_danger_radius raw_a) }

/-- A raw record with FRP 600 and high confidence. -/
def fire600 : RawFire :=
  { latitude := some 34, longitude := some (-118), brightness := none,
    acq_date := none, acq_time := none, satellite := none,
    confidence := some (PyConf.str "high"), frp := some 600 }

/-- A tower marked non-operational (e.g. by `mark_towers_in_fire_zones`). -/
def tower_off : CellTower :=
  { latitude := 34, longitude := -118, mcc := 310, mnc := 260, lac := 1,
    cell_id := 7, radio := "LTE", range_m := some 2000, is_operational := false }

/-! ## Theorems -/

/-- C2: `create_danger_zones` evaluated at the failing input — a fire with
`distance_km == 0.0` is classified LOW, not CRITICAL as the claim (and the
spec's `<=5 → CRITICAL` rule) require, because `if fire.distance_km and ...`
treats `0.0` as falsy. -/
theorem c2_zero_distance_fire_is_low :
    (create_danger_zones [fire0]).map (fun z => z.risk_level) = [AlertLevel.low] := by
  decide

/-- C5: `calculate_danger_radius` equals the claim's formula — FRP-bucket
base radius times the confidence factor (1.2 for "high" or numeric > 80,
0.8 for "low" or numeric < 30, else 1.0) — and FRP 600 with confidence
"high" yields 6.0. -/
theorem c5_danger_radius_formula :
    (∀ fire : RawFire, calculate_danger_radius fire = danger_radius_spec fire) ∧
    ∀ fire : RawFire, fire.frp = some 600 → fire.confidence = some (PyConf.str "high") →
      calculate_danger_radius fire = 6 := by
  constructor
  · intro fire
    simp only [calculate_danger_radius, danger_radius_spec]
    split_ifs <;> norm_num
  · intro fire hfrp hconf
    simp only [calculate_danger_radius, hfrp, hconf, Option.getD_some, pyOrQ]
    norm_num [conf_high]

/-- Witness for C5 at the concrete record `fire600`. -/
theorem c5_danger_radius_formula_witness :
    (fire600.frp = some 600 ∧ fire600.confidence = some (PyConf.str "high")) ∧
    calculate_danger_radius fire600 = 6 :=
  ⟨⟨rfl, rfl⟩, c5_danger_radius_formula.2 fire600 rfl rfl⟩

/-- C8: simple-mode coverage always answers, answering
(`False`, "likely_degraded") exactly when the point is inside some danger
zone (distance at most the zone radius) and (`True`, "assumed_available")
otherwise; in particular at 1.5 km from the center of a 2 km zone. -/
theorem c8_simple_coverage :
    ∀ (d : DistFn) (lat lng : ℚ) (zones : List DangerZone),
      (((estimate_coverage_simple d lat lng zones).has_coverage = false ∧
        (estimate_coverage_simple d lat lng zones).quality = "likely_degraded") ↔
        ∃ z ∈ zones, d lat lng z.center_lat z.center_lng ≤ z.radius_km) ∧
      (((estimate_coverage_simple d lat lng zones).has_coverage = true ∧
        (estimate_coverage_simple d lat lng zones).quality = "assumed_available") ↔
        ¬∃ z ∈ zones, d lat lng z.center_lat z.center_lng ≤ z.radius_km) ∧
      (∀ z ∈ zones, z.radius_km = 2 → d lat lng z.center_lat z.center_lng = 3/2 →
        (estimate_coverage_simple d lat lng zones).has_coverage = false ∧
        (estimate_coverage_simple d lat lng zones).quality = "likely_degraded") := by
  intro d lat lng zones
  have hiff : is_point_in_danger_zone d lat lng zones = true ↔
      ∃ z ∈ zones, d lat lng z.center_lat z.center_lng ≤ z.radius_km := by
    simp [is_point_in_danger_zone, List.any_eq_true]
  by_cases h : is_point_in_danger_zone d lat lng zones = true
  · refine ⟨?_, ?_, ?_⟩
    · simp only [estimate_coverage_simple, h, if_true]
      simpa using hiff.mp h
    · simp only [estimate_coverage_simple, h, if_true]
      simpa using hiff.mp h
    · intro z hz hrad hdist
      simp [estimate_coverage_simple, h]
  · refine ⟨?_, ?_, ?_⟩
    · simp only [estimate_coverage_simple, h, if_false]
      simpa using fun hex => h (hiff.mpr hex)
    · simp only [estimate_coverage_simple, h, if_false]
      simpa using fun hex => h (hiff.mpr hex)
    · intro z hz hrad hdist
      exfalso
      exact h (hiff.mpr ⟨z, hz, by rw [hdist, hrad]; norm_num⟩)

/-- Witness for C8: a point 1.5 km from the center of the 2 km zone `z0`. -/
theorem c8_simple_coverage_witness :
    (z0 ∈ [z0] ∧ z0.radius_km = 2 ∧ d_three_halves 0 0 z0.center_lat z0.center_lng = 3/2) ∧
    ((estimate_coverage_simple d_three_halves 0 0 [z0]).has_coverage = false ∧
     (estimate_coverage_simple d_three_halves 0 0 [z0]).quality = "likely_degraded") :=
  ⟨⟨List.mem_singleton.mpr rfl, rfl, rfl⟩,
    (c8_simple_coverage d_three_halves 0 0 [z0]).2.2 z0 (List.mem_singleton.mpr rfl) rfl rfl⟩

/-- C10: `estimate_cell_coverage` with no towers answers
("unknown", no coverage, 0 towers, no closest distance); with towers but
none operational it answers "no_service" with no coverage; both are plain
returns of a total function. -/
theorem c10_cell_coverage_degenerate :
    ∀ (d : DistFn) (lat lng : ℚ),
      estimate_cell_coverage d [] lat lng =
        { has_coverage := false, quality := "unknown", tower_count := some 0,
          closest_tower_m := none, reason := none } ∧
      ∀ towers : List CellTower, towers ≠ [] →
        (∀ t ∈ towers, t.is_operational = false) →
        estimate_cell_coverage d towers lat lng =
          { has_coverage := false, quality := "no_service", tower_count := some 0,
            closest_tower_m := none, reason := none } := by
  intro d lat lng
  constructor
  · simp [estimate_cell_coverage]
  · intro towers hne hop
    have hfilter : towers.filter (·.is_operational) = [] := by
      rw [List.filter_eq_nil_iff]
      intro t ht
      simp [hop t ht]
    simp [estimate_cell_coverage, hne, hfilter]

/-- Witness for C10 at a one-element list of non-operational towers. -/
theorem c10_cell_coverage_degenerate_witness :
    (([tower_off] : List CellTower) ≠ [] ∧ ∀ t ∈ [tower_off], t.is_operational = false) ∧
    estimate_cell_coverage dC [tower_off] 0 0 =
      { has_coverage := false, quality := "no_service", tower_count := some 0,
        closest_tower_m := none, reason := none } :=
  ⟨⟨by decide, by decide⟩,
    (c10_cell_coverage_degenerate dC 0 0).2 [tower_off] (by decide) (by decide)⟩

/-- C6 counterexample: a 200 response whose `routes` list is empty also
produces the no-route result `None`, so "no-route exactly when 404" is
false — the status here is 200, not 404. -/
theorem c6_counterexample_empty_routes :
    get_route_pure dC 0 0 1 1 none
      (ORSOutcome.response 200 (some { routes := [], error_message := none }) "") =
      Except.ok none ∧ (200 : ℕ) ≠ 404 :=
  ⟨rfl, by decide⟩

/-- C6 (amended): `get_route` returns the no-route `None` on a 404 response
*and* on a 200 response carrying no routes; any other non-2xx status and any
malformed 200 payload raise a routing failure; a timeout raises a failure
distinct from the no-route result. -/
theorem c6_failure_modes :
    ∀ (d : DistFn) (olat olng dlat dlng : ℚ) (zones : Option (List DangerZone)),
      (∀ body text, get_route_pure d olat olng dlat dlng zones
        (ORSOutcome.response 404 body text) = Except.ok none) ∧
      (∀ (status : ℕ) body text, status ≠ 404 → status ≠ 200 →
        ∃ e, get_route_pure d olat olng dlat dlng zones
          (ORSOutcome.response status body text) = Except.error e) ∧
      (∀ text, get_route_pure d olat olng dlat dlng zones
        (ORSOutcome.response 200 none text) = Except.error RouteFailure.malformedPayload) ∧
      (∀ msg text, get_route_pure d olat olng dlat dlng zones
        (ORSOutcome.response 200 (some { routes := [], error_message := msg }) text) =
        Except.ok none) ∧
      get_route_pure d olat olng dlat dlng zones ORSOutcome.timeout =
        Except.error RouteFailure.timeout ∧
      get_route_pure d olat olng dlat dlng zones ORSOutcome.timeout ≠ Except.ok none := by
  intro d olat olng dlat dlng zones
  refine ⟨?_, ?_, ?_, ?_, ?_, ?_⟩
  · intro body text
    simp [get_route_pure]
  · intro status body text h404 h200
    cases body with
    | none =>
      exact ⟨RouteFailure.malformedPayload, by simp [get_route_pure, h404, h200]⟩
    | some data =>
      exact ⟨RouteFailure.apiError (data.error_message.getD text),
        by simp [get_route_pure, h404, h200]⟩
  · intro text
    simp [get_route_pure]
  · intro msg text
    simp [get_route_pure]
  · simp [get_route_pure]
  · simp [get_route_pure]

/-- Witness for C6 at a concrete 500 response. -/
theorem c6_failure_modes_witness :
    ((500 : ℕ) ≠ 404 ∧ (500 : ℕ) ≠ 200) ∧
    ∃ e, get_route_pure dC 0 0 1 1 none (ORSOutcome.response 500 none "boom") =
      Except.error e :=
  ⟨⟨by decide, by decide⟩,
    (c6_failure_modes dC 0 0 1 1 none).2.1 500 none "boom" (by decide) (by decide)⟩

/-- Every radius `calculate_danger_radius` can produce is at least
0.8 km (smallest FRP bucket 1.0 times the smallest confidence factor 0.8). -/
theorem calculate_danger_radius_ge (fire : RawFire) :
    4/5 ≤ calculate_danger_radius fire := by
  simp only [calculate_danger_radius]
  split_ifs <;> norm_num

/-- Each zone built by the `create_danger_zones` loop takes its radius from
the corresponding fire: `(fire.danger_radius_km or 1.0) * buffer`. -/
theorem mem_create_danger_zones_aux (b : ℚ) :
    ∀ (i : ℕ) (fires : List FireData) (z : DangerZone),
      z ∈ create_danger_zones_aux b i fires →
      ∃ f ∈ fires, z.radius_km = pyOrQ f.danger_radius_km 1.0 * b := by
  intro i fires
  induction fires generalizing i with
  | nil =>
    intro z hz
    simp [create_danger_zones_aux] at hz
  | cons f rest ih =>
    intro z hz
    simp only [create_danger_zones_aux, List.mem_cons] at hz
    rcases hz with rfl | hz
    · exact ⟨f, by simp, rfl⟩
    · obtain ⟨g, hg, hr⟩ := ih (i + 1) z hz
      exact ⟨g, by simp [hg], hr⟩

/-- C9: every zone from `create_danger_zones` (default 1.5 buffer) has
radius `1.5 * danger_radius_km` of its fire when that field is present and
non-zero, and `1.5` when it is missing or zero; when every fire's
`danger_radius_km` came from `calculate_danger_radius`, every zone radius is
at least 1.2 km and strictly positive. -/
theorem c9_zone_radius :
    ∀ fires : List FireData,
      (∀ z ∈ create_danger_zones fires, ∃ f ∈ fires,
        (∀ v, f.danger_radius_km = some v → v ≠ 0 → z.radius_km = v * 1.5) ∧
        ((f.danger_radius_km = none ∨ f.danger_radius_km = some 0) → z.radius_km = 1.5)) ∧
      ((∀ f ∈ fires, ∃ raw, f.danger_radius_km = some (calculate_danger_radius raw)) →
        ∀ z ∈ create_danger_zones fires, 6/5 ≤ z.radius_km ∧ 0 < z.radius_km) := by
  intro fires
  constructor
  · intro z hz
    obtain ⟨f, hf, hr⟩ := mem_create_danger_zones_aux 1.5 0 fires z hz
    refine ⟨f, hf, ?_, ?_⟩
    · intro v hv hv0
      rw [hr, hv]
      simp [pyOrQ, hv0]
    · intro h
      rcases h with h | h <;> rw [hr, h] <;> norm_num [pyOrQ]
  · intro hprov z hz
    obtain ⟨f, hf, hr⟩ := mem_create_danger_zones_aux 1.5 0 fires z hz
    obtain ⟨raw, hraw⟩ := hprov f hf
    have hge := calculate_danger_radius_ge raw
    have hne : calculate_danger_radius raw ≠ 0 := by linarith
    rw [hr, hraw]
    simp only [pyOrQ, if_neg hne]
    constructor <;> nlinarith

/-- Witness for C9 with a fire whose radius came from
`calculate_danger_radius raw_a` (1.8 km). -/
theorem c9_zone_radius_witness :
    (∀ f ∈ [fire_w], ∃ raw, f.danger_radius_km = some (calculate_danger_radius raw)) ∧
    ∀ z ∈ create_danger_zones [fire_w], 6/5 ≤ z.radius_km ∧ 0 < z.radius_km := by
  have hprov : ∀ f ∈ [fire_w], ∃ raw, f.danger_radius_km = some (calculate_danger_radius raw) := by
    intro f hf
    rw [List.mem_singleton] at hf
    subst hf
    exact ⟨raw_a, rfl⟩
  exact ⟨hprov, (c9_zone_radius [fire_w]).2 hprov⟩

/-- Invariant of the `fetch_fires` merge loop: no produced record's dedup
key is in `seen`, and the produced records have pairwise distinct keys. -/
theorem fetch_fires_merge_keys (d : DistFn) (lat lng radius : ℚ) :
    ∀ (raws : List RawFire) (seen : List FireKey),
      (∀ f ∈ fetch_fires_merge d lat lng radius raws seen, fire_data_key f ∉ seen) ∧
      ((fetch_fires_merge d lat lng radius raws seen).map fire_data_key).Nodup := by
  intro raws
  induction raws with
  | nil =>
    intro seen
    simp [fetch_fires_merge]
  | cons fire rest ih =>
    intro seen
    rcases hla : fire.latitude with _ | flat
    · simpa only [fetch_fires_merge, hla] using ih seen
    · rcases hlo : fire.longitude with _ | flng
      · simpa only [fetch_fires_merge, hla, hlo] using ih seen
      · simp only [fetch_fires_merge, hla, hlo]
        by_cases hseen : fire_key flat flng fire.acq_date ∈ seen
        · simpa only [if_pos hseen] using ih seen
        · simp only [if_neg hseen]
          by_cases hd : d lat lng flat flng ≤ radius
          · simp only [if_pos hd]
            obtain ⟨ihmem, ihnodup⟩ := ih (fire_key flat flng fire.acq_date :: seen)
            refine ⟨?_, ?_⟩
            · intro f hf
              rcases List.mem_cons.mp hf with rfl | hf
              · exact hseen
              · exact fun hc => ihmem f hf (List.mem_cons_of_mem _ hc)
            · rw [List.map_cons, List.nodup_cons]
              refine ⟨?_, ihnodup⟩
              intro hc
              obtain ⟨f, hf, hkey⟩ := List.mem_map.mp hc
              exact ihmem f hf (by rw [hkey]; exact List.mem_cons_self _ _)
          · simp only [if_neg hd]
            obtain ⟨ihmem, ihnodup⟩ := ih (fire_key flat flng fire.acq_date :: seen)
            exact ⟨fun f hf hc => ihmem f hf (List.mem_cons_of_mem _ hc), ihnodup⟩

/-- A list whose images under `g` are pairwise distinct holds at most one
element of any `g`-fiber. -/
theorem length_filter_eq_le_one {α β : Type} [DecidableEq β] (g : α → β) :
    ∀ l : List α, (l.map g).Nodup → ∀ K : β,
      (l.filter fun a => decide (g a = K)).length ≤ 1 := by
  intro l
  induction l with
  | nil =>
    intro _ K
    simp
  | cons a rest ih =>
    intro hnodup K
    rw [List.map_cons, List.nodup_cons] at hnodup
    by_cases ha : g a = K
    · have hrest : rest.filter (fun x => decide (g x = K)) = [] := by
        rw [List.filter_eq_nil_iff]
        intro x hx hgx
        rw [decide_eq_true_eq] at hgx
        have hmem : g a ∈ List.map g rest := by
          rw [ha, ← hgx]
          exact List.mem_map.mpr ⟨x, hx, rfl⟩
        exact hnodup.1 hmem
      simp [List.filter_cons, ha, hrest]
    · simpa [List.filter_cons, ha] using ih hnodup.2 K

/-- C7 (amended): the result of `fetch_fires` never contains two entries
with the same dedup key — two raw records agreeing on the formatted
(lat, lng, acq_date) key contribute *at most* one `FireData` (exactly one is
not guaranteed: dedup precedes the `distance <= radius_km` filter, see the
counterexample). -/
theorem c7_dedup_at_most_one :
    ∀ (d : DistFn) (lat lng radius : ℚ) (raws : List RawFire) (K : FireKey),
      ((fetch_fires_model d lat lng radius raws).filter
        (fun f => decide (fire_data_key f = K))).length ≤ 1 := by
  intro d lat lng radius raws K
  have hperm : (fetch_fires_model d lat lng radius raws).Perm
      (fetch_fires_merge d lat lng radius raws []) :=
    List.mergeSort_perm _ _
  have hlen := (hperm.filter (fun f => decide (fire_data_key f = K))).length_eq
  rw [hlen]
  exact length_filter_eq_le_one fire_data_key _
    (fetch_fires_merge_keys d lat lng radius raws []).2 K

/-- C7 counterexample: `raw_a` and `raw_b` agree exactly on latitude,
longitude and acquisition date (they differ only in the reporting sensor),
yet a `fetch_fires` call whose radius filter rejects the first of them keeps
*zero* records — not "exactly one" — because the dedup key is recorded
before the range check. -/
theorem c7_counterexample :
    fetch_fires_model d_far 0 0 50 [raw_a, raw_b] = [] ∧
    raw_a.latitude = raw_b.latitude ∧ raw_a.longitude = raw_b.longitude ∧
    raw_a.acq_date = raw_b.acq_date ∧ raw_a.satellite ≠ raw_b.satellite := by
  have hmerge : fetch_fires_merge d_far 0 0 50 [raw_a, raw_b] [] = [] := by decide
  refine ⟨?_, rfl, rfl, rfl, by decide⟩
  rw [fetch_fires_model, hmerge]
  simp

/-- Membership in the proximity scan's `danger_zones_nearby` accumulator:
a zone is collected iff it was already collected or some path point is
strictly within twice its radius. -/
theorem mem_scan_zones_aux (d : DistFn) (path : List (ℚ × ℚ)) :
    ∀ (zones nearby : List DangerZone) (warnings : List String) (z : DangerZone),
      z ∈ (scan_zones_aux d path zones nearby warnings).1 ↔
        z ∈ nearby ∨ (z ∈ zones ∧ ∃ p ∈ path,
          d p.1 p.2 z.center_lat z.center_lng < z.radius_km * 2) := by
  intro zones
  induction zones with
  | nil =>
    intro nearby warnings z
    simp [scan_zones_aux]
  | cons zone rest ih =>
    intro nearby warnings z
    simp only [scan_zones_aux]
    cases hf : path.find? (fun p =>
        decide (d p.1 p.2 zone.center_lat zone.center_lng < zone.radius_km * 2)) with
    | none =>
      have hno : ∀ p ∈ path, ¬ d p.1 p.2 zone.center_lat zone.center_lng <
          zone.radius_km * 2 := by
        intro p hp
        have := List.find?_eq_none.mp hf p hp
        simpa using this
      rw [ih]
      constructor
      · rintro (hn | ⟨hz, hp⟩)
        · exact Or.inl hn
        · exact Or.inr ⟨List.mem_cons_of_mem _ hz, hp⟩
      · rintro (hn | ⟨hz, p, hp, hd⟩)
        · exact Or.inl hn
        · rcases List.mem_cons.mp hz with rfl | hz
          · exact absurd hd (hno p hp)
          · exact Or.inr ⟨hz, p, hp, hd⟩
    | some p =>
      dsimp only
      have hp_mem : p ∈ path := List.mem_of_find?_eq_some hf
      have hp_pred : d p.1 p.2 zone.center_lat zone.center_lng < zone.radius_km * 2 := by
        have := List.find?_some hf
        simpa using this
      by_cases hmem : zone ∈ nearby
      · rw [if_pos hmem, ih]
        constructor
        · rintro (hn | ⟨hz, hp⟩)
          · exact Or.inl hn
          · exact Or.inr ⟨List.mem_cons_of_mem _ hz, hp⟩
        · rintro (hn | ⟨hz, hp⟩)
          · exact Or.inl hn
          · rcases List.mem_cons.mp hz with rfl | hz
            · exact Or.inl hmem
            · exact Or.inr ⟨hz, hp⟩
      · rw [if_neg hmem, ih]
        constructor
        · rintro (hn | ⟨hz, hp⟩)
          · rcases List.mem_append.mp hn with hn | hn
            · exact Or.inl hn
            · rw [List.mem_singleton] at hn
              subst hn
              exact Or.inr ⟨List.mem_cons_self _ _, p, hp_mem, hp_pred⟩
          · exact Or.inr ⟨List.mem_cons_of_mem _ hz, hp⟩
        · rintro (hn | ⟨hz, hp⟩)
          · exact Or.inl (List.mem_append.mpr (Or.inl hn))
          · rcases List.mem_cons.mp hz with rfl | hz
            · exact Or.inl (List.mem_append.mpr (Or.inr (List.mem_singleton.mpr rfl)))
            · exact Or.inr ⟨hz, hp⟩

/-- The scan never collects a zone twice. -/
theorem nodup_scan_zones_aux (d : DistFn) (path : List (ℚ × ℚ)) :
    ∀ (zones nearby : List DangerZone) (warnings : List String),
      nearby.Nodup → (scan_zones_aux d path zones nearby warnings).1.Nodup := by
  intro zones
  induction zones with
  | nil =>
    intro nearby warnings h
    simpa [scan_zones_aux] using h
  | cons zone rest ih =>
    intro nearby warnings h
    simp only [scan_zones_aux]
    cases hf : path.find? (fun p =>
        decide (d p.1 p.2 zone.center_lat zone.center_lng < zone.radius_km * 2)) with
    | none => exact ih nearby warnings h
    | some p =>
      dsimp only
      by_cases hmem : zone ∈ nearby
      · rw [if_pos hmem]
        exact ih nearby warnings h
      · rw [if_neg hmem]
        refine ih _ _ ?_
        rw [List.nodup_append]
        exact ⟨h, List.nodup_singleton _, by
          intro a ha hb
          rw [List.mem_singleton] at hb
          subst hb
          exact hmem ha⟩

/-- `get_route` sets `avoids_fire_zones` to
`len(danger_zones_nearby) == 0` at construction time. -/
theorem route_to_safe_route_avoids (d : DistFn) (olat olng dlat dlng : ℚ)
    (zones : Option (List DangerZone)) (route : ORSRoute) (steps : List RouteStep) :
    ((route_to_safe_route d olat olng dlat dlng zones route steps).avoids_fire_zones = true ↔
      (route_to_safe_route d olat olng dlat dlng zones route steps).danger_zones_nearby = []) := by
  simp only [route_to_safe_route]
  exact List.isEmpty_iff

/-- Inversion of a successful `get_route`: the returned `SafeRoute` is built
by `route_to_safe_route` from the first route of a parsed 200 response. -/
theorem get_route_pure_ok_some {d : DistFn} {olat olng dlat dlng : ℚ}
    {zones : Option (List DangerZone)} {outcome : ORSOutcome} {r : SafeRoute}
    (h : get_route_pure d olat olng dlat dlng zones outcome = Except.ok (some r)) :
    ∃ route steps, build_steps route.geometry route.segments = Except.ok steps ∧
      r = route_to_safe_route d olat olng dlat dlng zones route steps := by
  cases outcome with
  | timeout => simp [get_route_pure] at h
  | requestError => simp [get_route_pure] at h
  | response status body text =>
    simp only [get_route_pure] at h
    split_ifs at h with h404 h200
    · simp at h
    · cases body with
      | none => simp at h
      | some data => simp at h
    · cases body with
      | none => simp at h
      | some data =>
        dsimp only at h
        cases hroutes : data.routes with
        | nil =>
          rw [hroutes] at h
          simp at h
        | cons route rest =>
          rw [hroutes] at h
          dsimp only at h
          cases hsteps : build_steps route.geometry route.segments with
          | error e =>
            rw [hsteps] at h
            dsimp only at h
            simp at h
          | ok steps =>
            rw [hsteps] at h
            dsimp only at h
            simp only [Except.ok.injEq, Option.some.injEq] at h
            exact ⟨route, steps, hsteps, h.symm⟩

/-- C4: for a successful `get_route` call with a non-empty danger-zone list,
a zone is flagged iff some decoded path point is strictly within twice its
radius, no zone is flagged twice, and `avoids_fire_zones` is true iff
nothing was flagged. -/
theorem c4_route_proximity_scan :
    ∀ (d : DistFn) (olat olng dlat dlng : ℚ) (zones : List DangerZone)
      (outcome : ORSOutcome) (r : SafeRoute),
      zones ≠ [] →
      get_route_pure d olat olng dlat dlng (some zones) outcome = Except.ok (some r) →
      (∀ z, z ∈ r.danger_zones_nearby ↔ z ∈ zones ∧ ∃ p ∈ decode_polyline r.geometry,
        d p.1 p.2 z.center_lat z.center_lng < z.radius_km * 2) ∧
      r.danger_zones_nearby.Nodup ∧
      (r.avoids_fire_zones = true ↔ r.danger_zones_nearby = []) := by
  intro d olat olng dlat dlng zones outcome r hne h
  obtain ⟨route, steps, hsteps, rfl⟩ := get_route_pure_ok_some h
  have hgeom : (route_to_safe_route d olat olng dlat dlng (some zones) route steps).geometry =
      route.geometry := rfl
  have hnearby : (route_to_safe_route d olat olng dlat dlng (some zones) route
      steps).danger_zones_nearby =
      (scan_zones d (decode_polyline route.geometry) zones).1 := by
    simp only [route_to_safe_route, if_neg hne]
  refine ⟨?_, ?_, route_to_safe_route_avoids d olat olng dlat dlng (some zones) route steps⟩
  · intro z
    rw [hgeom, hnearby, scan_zones, mem_scan_zones_aux]
    simp
  · rw [hnearby]
    exact nodup_scan_zones_aux d _ zones [] [] (List.nodup_nil)

/-- Witness for C4: one zone, a 200 response with an empty geometry — the
scan flags nothing and `avoids_fire_zones` holds. -/
theorem c4_route_proximity_scan_witness :
    (([z0] : List DangerZone) ≠ [] ∧
      get_route_pure dC 0 0 1 1 (some [z0])
        (ORSOutcome.response 200 (some body_one) "") = Except.ok (some r_unc)) ∧
    ((∀ z, z ∈ r_unc.danger_zones_nearby ↔ z ∈ [z0] ∧ ∃ p ∈ decode_polyline r_unc.geometry,
        dC p.1 p.2 z.center_lat z.center_lng < z.radius_km * 2) ∧
      r_unc.danger_zones_nearby.Nodup ∧
      (r_unc.avoids_fire_zones = true ↔ r_unc.danger_zones_nearby = [])) := by
  have hne : ([z0] : List DangerZone) ≠ [] := by simp
  have hgr : get_route_pure dC 0 0 1 1 (some [z0])
      (ORSOutcome.response 200 (some body_one) "") = Except.ok (some r_unc) := by rfl
  exact ⟨⟨hne, hgr⟩,
    c4_route_proximity_scan dC 0 0 1 1 [z0] (ORSOutcome.response 200 (some body_one) "")
      r_unc hne hgr⟩

/-- Any best-candidate kept by the constrained pass satisfies the
`avoids_fire_zones ↔ no nearby zones` equivalence (it came straight out of
`get_route`). -/
theorem selector_pass1_result (d : DistFn) (env : RouteEnv) (olat olng : ℚ)
    (zones : Option (List DangerZone)) :
    ∀ (l : List Dest) (best : Option (SafeRoute × Dest × ℚ)) (r : SafeRoute)
      (dst : Dest) (q : ℚ),
      (∀ r0 dst0 q0, best = some (r0, dst0, q0) →
        (r0.avoids_fire_zones = true ↔ r0.danger_zones_nearby = [])) →
      selector_pass1 d env olat olng zones best l = some (r, dst, q) →
      (r.avoids_fire_zones = true ↔ r.danger_zones_nearby = []) := by
  intro l
  induction l with
  | nil =>
    intro best r dst q hbest h
    exact hbest r dst q h
  | cons dst0 rest ih =>
    intro best r dst q hbest h
    simp only [selector_pass1] at h
    cases hgr : get_route_pure d olat olng dst0.lat dst0.lng zones (env dst0 zones) with
    | error e =>
      rw [hgr] at h
      exact ih best r dst q hbest h
    | ok v =>
      cases v with
      | none =>
        rw [hgr] at h
        exact ih best r dst q hbest h
      | some route =>
        rw [hgr] at h
        dsimp only at h
        by_cases hc : route.avoids_fire_zones && lt_best route.duration_minutes best
        · rw [if_pos hc] at h
          refine ih _ r dst q ?_ h
          intro r0 dst1 q0 heq
          obtain ⟨route2, steps, _, hr2⟩ := get_route_pure_ok_some hgr
          injection heq with heq1
          injection heq1
          subst_vars
          exact route_to_safe_route_avoids d olat olng dst0.lat dst0.lng zones route2 steps
        · rw [if_neg hc] at h
          exact ih best r dst q hbest h

/-- Any best-candidate kept by the fallback pass has been forced to
`avoids_fire_zones = false`. -/
theorem selector_pass2_avoids_false (d : DistFn) (env : RouteEnv) (olat olng : ℚ) :
    ∀ (l : List Dest) (best : Option (SafeRoute × Dest × ℚ)) (r : SafeRoute)
      (dst : Dest) (q : ℚ),
      (∀ r0 dst0 q0, best = some (r0, dst0, q0) → r0.avoids_fire_zones = false) →
      selector_pass2 d env olat olng best l = some (r, dst, q) →
      r.avoids_fire_zones = false := by
  intro l
  induction l with
  | nil =>
    intro best r dst q hbest h
    exact hbest r dst q h
  | cons dst0 rest ih =>
    intro best r dst q hbest h
    simp only [selector_pass2] at h
    cases hgr : get_route_pure d olat olng dst0.lat dst0.lng none (env dst0 none) with
    | error e =>
      rw [hgr] at h
      exact ih best r dst q hbest h
    | ok v =>
      cases v with
      | none =>
        rw [hgr] at h
        exact ih best r dst q hbest h
      | some route =>
        rw [hgr] at h
        dsimp only at h
        by_cases hc : lt_best route.duration_minutes best = true
        · rw [if_pos hc] at h
          refine ih _ r dst q ?_ h
          intro r0 dst1 q0 heq
          injection heq with heq1
          injection heq1
          subst_vars
          rfl
        · rw [if_neg hc] at h
          exact ih best r dst q hbest h

/-- C1 (amended): every route built by `get_route` satisfies
`avoids_fire_zones ↔ danger_zones_nearby = []`; for routes returned by the
destination selector only the forward implication survives — a route the
selector returns with `avoids_fire_zones = true` has no nearby zones, while
fallback-pass routes carry `avoids_fire_zones = false` with an empty
`danger_zones_nearby` (see the counterexample). -/
theorem c1_avoids_iff_nearby_empty :
    (∀ (d : DistFn) (olat olng dlat dlng : ℚ) (zones : Option (List DangerZone))
      (outcome : ORSOutcome) (r : SafeRoute),
      get_route_pure d olat olng dlat dlng zones outcome = Except.ok (some r) →
      (r.avoids_fire_zones = true ↔ r.danger_zones_nearby = [])) ∧
    (∀ (d : DistFn) (env : RouteEnv) (olat olng : ℚ) (dests : List Dest)
      (zones : Option (List DangerZone)) (r : SafeRoute) (dst : Dest),
      get_route_to_nearest_safe_place d env olat olng dests zones = some (r, dst) →
      r.avoids_fire_zones = true → r.danger_zones_nearby = []) := by
  constructor
  · intro d olat olng dlat dlng zones outcome r h
    obtain ⟨route, steps, _, rfl⟩ := get_route_pure_ok_some h
    exact route_to_safe_route_avoids d olat olng dlat dlng zones route steps
  · intro d env olat olng dests zones r dst h hav
    simp only [get_route_to_nearest_safe_place] at h
    cases hp1 : selector_pass1 d env olat olng zones none dests with
    | some best =>
      obtain ⟨r1, dst1, q1⟩ := best
      rw [hp1] at h
      dsimp only at h
      simp only [Option.some.injEq, Prod.mk.injEq] at h
      obtain ⟨h1, h2⟩ := h
      have hiff := selector_pass1_result d env olat olng zones dests none r1 dst1 q1
        (by intro r0 dst0 q0 heq; cases heq) hp1
      subst h1
      dsimp only at hav ⊢
      exact hiff.mp hav
    | none =>
      rw [hp1] at h
      dsimp only at h
      cases hp2 : selector_pass2 d env olat olng none dests with
      | none =>
        rw [hp2] at h
        cases h
      | some best =>
        obtain ⟨r2, dst2, q2⟩ := best
        rw [hp2] at h
        dsimp only at h
        simp only [Option.some.injEq, Prod.mk.injEq] at h
        obtain ⟨h1, h2⟩ := h
        have hfalse := selector_pass2_avoids_false d env olat olng dests none r2 dst2 q2
          (by intro r0 dst0 q0 heq; cases heq) hp2
        subst h1
        dsimp only at hav
        rw [hfalse] at hav
        cases hav

/-- C1 counterexample: a concrete selector run in which the constrained pass
404s and the fallback succeeds returns a route with
`avoids_fire_zones = false` while `danger_zones_nearby` is empty — the
claimed biconditional fails for fallback-pass routes. -/
theorem c1_counterexample_fallback_route :
    (get_route_to_nearest_safe_place dC env_cex 0 0 [dest0] (some [z0])).map
      (fun p => (p.1.avoids_fire_zones, p.1.danger_zones_nearby)) =
      some (false, ([] : List DangerZone)) := by
  rfl

/-- Witness for C1 at a concrete successful `get_route` call. -/
theorem c1_avoids_iff_nearby_empty_witness :
    get_route_pure dC 0 0 1 1 none
      (ORSOutcome.response 200 (some body_one) "") = Except.ok (some r_unc) ∧
    (r_unc.avoids_fire_zones = true ↔ r_unc.danger_zones_nearby = []) :=
  ⟨by rfl,
    c1_avoids_iff_nearby_empty.1 dC 0 0 1 1 none
      (ORSOutcome.response 200 (some body_one) "") r_unc (by rfl)⟩

/-- If no constrained request both succeeds and avoids the fire zones, the
constrained pass keeps nothing. -/
theorem selector_pass1_none (d : DistFn) (env : RouteEnv) (olat olng : ℚ)
    (zones : Option (List DangerZone)) :
    ∀ l : List Dest,
      (∀ dst ∈ l, ∀ r, get_route_pure d olat olng dst.lat dst.lng zones (env dst zones) =
        Except.ok (some r) → r.avoids_fire_zones = false) →
      selector_pass1 d env olat olng zones none l = none := by
  intro l
  induction l with
  | nil => intro _; rfl
  | cons dst rest ih =>
    intro h
    simp only [selector_pass1]
    cases hgr : get_route_pure d olat olng dst.lat dst.lng zones (env dst zones) with
    | error e => exact ih fun dst' hd => h dst' (List.mem_cons_of_mem _ hd)
    | ok v =>
      cases v with
      | none => exact ih fun dst' hd => h dst' (List.mem_cons_of_mem _ hd)
      | some route =>
        dsimp only
        have hav : route.avoids_fire_zones = false := h dst (List.mem_cons_self _ _) route hgr
        rw [hav]
        simp only [Bool.false_and, Bool.false_eq_true, if_false]
        exact ih fun dst' hd => h dst' (List.mem_cons_of_mem _ hd)

/-- Once the fallback pass holds a best candidate it never drops it. -/
theorem selector_pass2_isSome_acc (d : DistFn) (env : RouteEnv) (olat olng : ℚ) :
    ∀ (l : List Dest) (b : SafeRoute × Dest × ℚ),
      (selector_pass2 d env olat olng (some b) l).isSome = true := by
  intro l
  induction l with
  | nil => intro b; rfl
  | cons dst rest ih =>
    intro b
    simp only [selector_pass2]
    cases hgr : get_route_pure d olat olng dst.lat dst.lng none (env dst none) with
    | error e => exact ih b
    | ok v =>
      cases v with
      | none => exact ih b
      | some route =>
        dsimp only
        by_cases hc : lt_best route.duration_minutes (some b) = true
        · rw [if_pos hc]
          exact ih _
        · rw [if_neg hc]
          exact ih b

/-- If some unconstrained request succeeds, the fallback pass returns a
candidate. -/
theorem selector_pass2_isSome (d : DistFn) (env : RouteEnv) (olat olng : ℚ) :
    ∀ (l : List Dest) (best : Option (SafeRoute × Dest × ℚ)),
      (∃ dst ∈ l, ∃ r, get_route_pure d olat olng dst.lat dst.lng none (env dst none) =
        Except.ok (some r)) →
      (selector_pass2 d env olat olng best l).isSome = true := by
  intro l
  induction l with
  | nil =>
    rintro best ⟨dst, hd, _⟩
    simp at hd
  | cons dst0 rest ih =>
    rintro best ⟨dst, hd, r, hr⟩
    simp only [selector_pass2]
    cases hgr : get_route_pure d olat olng dst0.lat dst0.lng none (env dst0 none) with
    | error e =>
      rcases List.mem_cons.mp hd with rfl | hmem
      · rw [hgr] at hr
        simp at hr
      · exact ih best ⟨dst, hmem, r, hr⟩
    | ok v =>
      cases v with
      | none =>
        rcases List.mem_cons.mp hd with rfl | hmem
        · rw [hgr] at hr
          simp at hr
        · exact ih best ⟨dst, hmem, r, hr⟩
      | some route =>
        dsimp only
        by_cases hc : lt_best route.duration_minutes best = true
        · rw [if_pos hc]
          exact selector_pass2_isSome_acc d env olat olng rest _
        · rw [if_neg hc]
          cases best with
          | none => exact absurd rfl hc
          | some b => exact selector_pass2_isSome_acc d env olat olng rest b

/-- Every candidate the fallback pass holds has the fallback mutation
applied (forced `avoids_fire_zones = false`, appended warning) and records
the duration of some unconstrained success among `dests`. -/
theorem selector_pass2_result_props (d : DistFn) (env : RouteEnv) (olat olng : ℚ)
    (dests : List Dest) :
    ∀ l : List Dest, (∀ x ∈ l, x ∈ dests) →
      ∀ (best : Option (SafeRoute × Dest × ℚ)) (r : SafeRoute) (dst : Dest) (q : ℚ),
      (∀ r0 dst0 q0, best = some (r0, dst0, q0) →
        r0.avoids_fire_zones = false ∧ r0.warnings ≠ [] ∧ r0.duration_minutes = q0 ∧
        ∃ dstw ∈ dests, ∃ rr, get_route_pure d olat olng dstw.lat dstw.lng none
          (env dstw none) = Except.ok (some rr) ∧ q0 = rr.duration_minutes) →
      selector_pass2 d env olat olng best l = some (r, dst, q) →
      r.avoids_fire_zones = false ∧ r.warnings ≠ [] ∧ r.duration_minutes = q ∧
      ∃ dstw ∈ dests, ∃ rr, get_route_pure d olat olng dstw.lat dstw.lng none
        (env dstw none) = Except.ok (some rr) ∧ q = rr.duration_minutes := by
  intro l
  induction l with
  | nil =>
    intro _ best r dst q hbest h
    exact hbest r dst q h
  | cons dst0 rest ih =>
    intro hsub best r dst q hbest h
    simp only [selector_pass2] at h
    cases hgr : get_route_pure d olat olng dst0.lat dst0.lng none (env dst0 none) with
    | error e =>
      rw [hgr] at h
      exact ih (fun x hx => hsub x (List.mem_cons_of_mem _ hx)) best r dst q hbest h
    | ok v =>
      cases v with
      | none =>
        rw [hgr] at h
        exact ih (fun x hx => hsub x (List.mem_cons_of_mem _ hx)) best r dst q hbest h
      | some route =>
        rw [hgr] at h
        dsimp only at h
        by_cases hc : lt_best route.duration_minutes best = true
        · rw [if_pos hc] at h
          refine ih (fun x hx => hsub x (List.mem_cons_of_mem _ hx)) _ r dst q ?_ h
          intro r0 dst1 q0 heq
          simp only [Option.some.injEq, Prod.mk.injEq] at heq
          obtain ⟨h1, _, h3⟩ := heq
          subst h1
          subst h3
          refine ⟨rfl, ?_, rfl, dst0, hsub dst0 (List.mem_cons_self _ _), route, hgr, rfl⟩
          simp [mark_fallback]
        · rw [if_neg hc] at h
          exact ih (fun x hx => hsub x (List.mem_cons_of_mem _ hx)) best r dst q hbest h

/-- The duration the fallback pass returns is minimal among the durations of
all unconstrained successes it scanned (and never above the incoming best). -/
theorem selector_pass2_min (d : DistFn) (env : RouteEnv) (olat olng : ℚ) :
    ∀ (l : List Dest) (best : Option (SafeRoute × Dest × ℚ)) (r : SafeRoute)
      (dst : Dest) (q : ℚ),
      selector_pass2 d env olat olng best l = some (r, dst, q) →
      (∀ dst0 ∈ l, ∀ r0, get_route_pure d olat olng dst0.lat dst0.lng none (env dst0 none) =
        Except.ok (some r0) → q ≤ r0.duration_minutes) ∧
      (∀ rb db qb, best = some (rb, db, qb) → q ≤ qb) := by
  intro l
  induction l with
  | nil =>
    intro best r dst q h
    simp only [selector_pass2] at h
    constructor
    · intro dst0 hd
      simp at hd
    · intro rb db qb hb
      rw [hb] at h
      simp only [Option.some.injEq, Prod.mk.injEq] at h
      obtain ⟨_, _, h3⟩ := h
      exact le_of_eq h3.symm
  | cons dst0 rest ih =>
    intro best r dst q h
    simp only [selector_pass2] at h
    cases hgr : get_route_pure d olat olng dst0.lat dst0.lng none (env dst0 none) with
    | error e =>
      rw [hgr] at h
      obtain ⟨ha, hb⟩ := ih best r dst q h
      refine ⟨?_, hb⟩
      intro dst1 hd r1 hr1
      rcases List.mem_cons.mp hd with rfl | hmem
      · rw [hgr] at hr1
        simp at hr1
      · exact ha dst1 hmem r1 hr1
    | ok v =>
      cases v with
      | none =>
        rw [hgr] at h
        obtain ⟨ha, hb⟩ := ih best r dst q h
        refine ⟨?_, hb⟩
        intro dst1 hd r1 hr1
        rcases List.mem_cons.mp hd with rfl | hmem
        · rw [hgr] at hr1
          simp at hr1
        · exact ha dst1 hmem r1 hr1
      | some route =>
        rw [hgr] at h
        dsimp only at h
        by_cases hc : lt_best route.duration_minutes best = true
        · rw [if_pos hc] at h
          obtain ⟨ha, hb⟩ := ih _ r dst q h
          have hq_le : q ≤ route.duration_minutes :=
            hb (mark_fallback route) dst0 route.duration_minutes rfl
          refine ⟨?_, ?_⟩
          · intro dst1 hd r1 hr1
            rcases List.mem_cons.mp hd with rfl | hmem
            · rw [hgr] at hr1
              simp only [Except.ok.injEq, Option.some.injEq] at hr1
              subst hr1
              exact hq_le
            · exact ha dst1 hmem r1 hr1
          · intro rb db qb hbeq
            rw [hbeq] at hc
            have hlt : route.duration_minutes < qb := by
              simpa [lt_best] using hc
            exact le_trans hq_le (le_of_lt hlt)
        · rw [if_neg hc] at h
          obtain ⟨ha, hb⟩ := ih best r dst q h
          refine ⟨?_, hb⟩
          intro dst1 hd r1 hr1
          rcases List.mem_cons.mp hd with rfl | hmem
          · rw [hgr] at hr1
            simp only [Except.ok.injEq, Option.some.injEq] at hr1
            subst hr1
            cases hbest : best with
            | none =>
              rw [hbest] at hc
              exact absurd rfl hc
            | some b =>
              obtain ⟨rb, db, qb⟩ := b
              have hqb : q ≤ qb := hb rb db qb hbest
              have hnlt : ¬ route.duration_minutes < qb := by
                rw [hbest] at hc
                simpa [lt_best] using hc
              exact le_trans hqb (not_lt.mp hnlt)
          · exact ha dst1 hmem r1 hr1

/-- C3: if the constrained pass finds no successful route with
`avoids_fire_zones`, and at least one unconstrained request succeeds, the
selector returns a fallback route: minimal `duration_minutes` among the
unconstrained successes, `avoids_fire_zones = false` and a non-empty
warnings list — regardless of whether that route passed near any zone. -/
theorem c3_fallback_pass (d : DistFn) (env : RouteEnv) (olat olng : ℚ)
    (dests : List Dest) (zones : Option (List DangerZone))
    (h1 : ∀ dst ∈ dests, ∀ r, get_route_pure d olat olng dst.lat dst.lng zones
      (env dst zones) = Except.ok (some r) → r.avoids_fire_zones = false)
    (h2 : ∃ dst ∈ dests, ∃ r, get_route_pure d olat olng dst.lat dst.lng none
      (env dst none) = Except.ok (some r)) :
    ∃ rOut dstOut,
      get_route_to_nearest_safe_place d env olat olng dests zones = some (rOut, dstOut) ∧
      rOut.avoids_fire_zones = false ∧ rOut.warnings ≠ [] ∧
      (∃ dst0 ∈ dests, ∃ r0, get_route_pure d olat olng dst0.lat dst0.lng none
        (env dst0 none) = Except.ok (some r0) ∧
        rOut.duration_minutes = r0.duration_minutes) ∧
      (∀ dst0 ∈ dests, ∀ r0, get_route_pure d olat olng dst0.lat dst0.lng none
        (env dst0 none) = Except.ok (some r0) →
        rOut.duration_minutes ≤ r0.duration_minutes) := by
  have hp1 : selector_pass1 d env olat olng zones none dests = none :=
    selector_pass1_none d env olat olng zones dests h1
  have hsome := selector_pass2_isSome d env olat olng dests none h2
  obtain ⟨out, hp2⟩ := Option.isSome_iff_exists.mp hsome
  obtain ⟨r, dst, q⟩ := out
  obtain ⟨hav, hw, hdur, dstw, hdw, rr, hrr, hqrr⟩ :=
    selector_pass2_result_props d env olat olng dests dests (fun x hx => hx)
      none r dst q (by intro r0 dst0 q0 heq; cases heq) hp2
  have hmin := selector_pass2_min d env olat olng dests none r dst q hp2
  refine ⟨{ r with destination_name := dst.name }, dst, ?_, hav, hw, ?_, ?_⟩
  · simp only [get_route_to_nearest_safe_place, hp1, hp2]
  · exact ⟨dstw, hdw, rr, hrr, hdur.trans hqrr⟩
  · intro dst0 hd0 r0 hr0
    have hle := hmin.1 dst0 hd0 r0 hr0
    rw [← hdur] at hle
    exact hle

/-- Witness for C3: one candidate, constrained request 404s, unconstrained
request succeeds with the 9-minute `route_cex`. -/
theorem c3_fallback_pass_witness :
    ((∀ dst ∈ [dest0], ∀ r, get_route_pure dC 0 0 dst.lat dst.lng (some [z0])
        (env_cex dst (some [z0])) = Except.ok (some r) → r.avoids_fire_zones = false) ∧
      (∃ dst ∈ [dest0], ∃ r, get_route_pure dC 0 0 dst.lat dst.lng none
        (env_cex dst none) = Except.ok (some r))) ∧
    (∃ rOut dstOut,
      get_route_to_nearest_safe_place dC env_cex 0 0 [dest0] (some [z0]) =
        some (rOut, dstOut) ∧
      rOut.avoids_fire_zones = false ∧ rOut.warnings ≠ [] ∧
      (∃ dst0 ∈ [dest0], ∃ r0, get_route_pure dC 0 0 dst0.lat dst0.lng none
        (env_cex dst0 none) = Except.ok (some r0) ∧
        rOut.duration_minutes = r0.duration_minutes) ∧
      (∀ dst0 ∈ [dest0], ∀ r0, get_route_pure dC 0 0 dst0.lat dst0.lng none
        (env_cex dst0 none) = Except.ok (some r0) →
        rOut.duration_minutes ≤ r0.duration_minutes)) := by
  have h1 : ∀ dst ∈ [dest0], ∀ r, get_route_pure dC 0 0 dst.lat dst.lng (some [z0])
      (env_cex dst (some [z0])) = Except.ok (some r) → r.avoids_fire_zones = false := by
    intro dst hdst r hr
    rw [List.mem_singleton] at hdst
    subst hdst
    simp [env_cex, get_route_pure] at hr
  have h2 : ∃ dst ∈ [dest0], ∃ r, get_route_pure dC 0 0 dst.lat dst.lng none
      (env_cex dst none) = Except.ok (some r) :=
    ⟨dest0, List.mem_singleton.mpr rfl, r_unc, by rfl⟩
  exact ⟨⟨h1, h2⟩, c3_fallback_pass dC env_cex 0 0 [dest0] (some [z0]) h1 h2⟩
